import Mathlib

/-!
Verification development for the FlashMemory repository (Adesto AT45DB081E
and AT25SF081 NOR-flash drivers).  The definitions below are a shallow
embedding of the address translation, erase-range decomposition,
write-sequencing and status-polling logic of
`src/at45db/at45db081.cpp` (current AT45 revision),
`src/at45db/src/at45db081.cpp` (older AT45 revision) and
`src/Adesto/at25/at25_driver.cpp`.  Machine integers are modelled as `Nat`
with explicit masking where the C++ code masks; SPI transmissions are
modelled as explicit traces (lists of issued commands).
-/

namespace Adesto

/-- `enum FlashSection` from at45db081.hpp. -/
inductive FlashSection where
  | PAGE
  | BLOCK
  | SECTOR
deriving DecidableEq

/-- `struct FlashSizes` from at45db081.cpp (sector/block/page counts). -/
structure FlashSizes where
  numSectors : Nat
  numBlocks : Nat
  numPages : Nat
deriving DecidableEq

/-- `chipSpecs[AT45DB081E]` from at45db081.cpp: `{ 16, 512, 4096 }`. -/
def chipSpecs : FlashSizes := ⟨16, 512, 4096⟩

/-- `struct AddressDescriptions` from at45db081.cpp. -/
structure AddressDescriptions where
  dummyBitsMSB : Nat
  addressBits : Nat
  dummyBitsLSB : Nat
deriving DecidableEq

/-- `struct AddressScheme` from at45db081.cpp. -/
structure AddressScheme where
  standardSize : AddressDescriptions
  binarySize : AddressDescriptions
deriving DecidableEq

/-- `struct MemoryAddressFormat` from at45db081.cpp. -/
structure MemoryAddressFormat where
  page : AddressScheme
  block : AddressScheme
  sector : AddressScheme
  sector0ab : AddressScheme
  numAddressBytes : Nat
deriving DecidableEq

/-- `addressFormat[AT45DB081E]` from at45db081.cpp (datasheet pgs. 13-14). -/
def addressFormat : MemoryAddressFormat :=
  ⟨⟨⟨3, 12, 9⟩, ⟨4, 12, 8⟩⟩,
   ⟨⟨3, 9, 12⟩, ⟨4, 9, 11⟩⟩,
   ⟨⟨3, 4, 17⟩, ⟨4, 4, 16⟩⟩,
   ⟨⟨3, 9, 12⟩, ⟨4, 9, 11⟩⟩,
   3⟩

/-- `STANDARD_PAGE_SIZE` from at45db081.cpp. -/
def STANDARD_PAGE_SIZE : Nat := 264

/-- `BINARY_PAGE_SIZE` from at45db081.cpp. -/
def BINARY_PAGE_SIZE : Nat := 256

namespace NORFlash

/-- The AT45 driver's session geometry: the mutable member fields
`pageSize`, `blockSize`, `sectorSize` of class `AT45` (at45db081.hpp),
set by `useBinaryPageSize` / `useDataFlashPageSize`. -/
structure Geometry where
  pageSize : Nat
  blockSize : Nat
  sectorSize : Nat
deriving DecidableEq

/-- Sizes installed by `AT45::useBinaryPageSize` (at45db081.cpp). -/
def binaryGeometry : Geometry := ⟨256, 2048, 65536⟩

/-- Sizes installed by `AT45::useDataFlashPageSize` (at45db081.cpp). -/
def dataFlashGeometry : Geometry := ⟨264, 2112, 67584⟩

/-- `AT45::getSectionFromAddress` (at45db081.cpp, without the
`errorFlags` update, which is modelled separately where a claim needs it):
integer division of the raw address by the section's byte size. -/
def getSectionFromAddress (g : Geometry) (s : FlashSection) (rawAddress : Nat) : Nat :=
  match s with
  | .PAGE => rawAddress / g.pageSize
  | .BLOCK => rawAddress / g.blockSize
  | .SECTOR => rawAddress / g.sectorSize

/-- `AT45::getSectionStartAddress` (at45db081.cpp). -/
def getSectionStartAddress (g : Geometry) (s : FlashSection) (sectionNumber : Nat) : Nat :=
  match s with
  | .SECTOR => sectionNumber * g.sectorSize
  | .BLOCK => sectionNumber * g.blockSize
  | .PAGE => sectionNumber * g.pageSize

/-- The `page` sub-range of `AT45::MemoryRange` as filled in by
`AT45::getWriteReadPages`.  The C++ field `end` is called `stop` here
(`end` is reserved in Lean). -/
structure PageRange where
  start : Nat
  stop : Nat
  startPageOffset : Nat
  endPageOffset : Nat
deriving DecidableEq

/-- `AT45::getWriteReadPages` (at45db081.cpp lines 642-660). -/
def getWriteReadPages (g : Geometry) (startAddress len : Nat) : PageRange :=
  let endAddress := startAddress + len - 1
  let start := getSectionFromAddress g .PAGE startAddress
  let startPageOffset := startAddress - getSectionStartAddress g .PAGE start
  let stop := getSectionFromAddress g .PAGE endAddress
  let endPageOffset := endAddress - getSectionStartAddress g .PAGE stop
  ⟨start, stop, startPageOffset, endPageOffset⟩

/-- One programming operation issued by `AT45::write`:
`rmw page offset len` is a `readModifyWriteManual` call (read-modify-write
of `len` bytes at `offset` into page `page`); `fullPage page` is a
`pageWrite` call programming the whole page. -/
inductive WriteSegment where
  | rmw (page offset len : Nat)
  | fullPage (page : Nat)
deriving DecidableEq

/-- The number of data bytes a write segment programs. -/
def segmentBytes (g : Geometry) : WriteSegment → Nat
  | .rmw _ _ len => len
  | .fullPage _ => g.pageSize

/-- The sequence of programming operations issued by `AT45::write`
(at45db081.cpp lines 316-376) on the path where the device is always
ready and reports no erase/program error:
a first `readModifyWriteManual` of `min(len, pageSize - startPageOffset)`
bytes, then `pageWrite` for every page index `i` with
`start + 1 <= i < end`, then, when `start != end` and
`endPageOffset != 0`, a final `readModifyWriteManual` of
`endPageOffset` bytes at offset 0 of the last page. -/
def writeSegments (g : Geometry) (address len : Nat) : List WriteSegment :=
  if len = 0 then []
  else
    let range := getWriteReadPages g address len
    let writeLen :=
      if len < g.pageSize - range.startPageOffset then len
      else g.pageSize - range.startPageOffset
    let firstSeg := WriteSegment.rmw range.start range.startPageOffset writeLen
    let midSegs := (List.range' (range.start + 1) (range.stop - (range.start + 1))).map
      WriteSegment.fullPage
    let lastSeg :=
      if range.start ≠ range.stop ∧ range.endPageOffset ≠ 0 then
        [WriteSegment.rmw range.stop 0 range.endPageOffset]
      else []
    firstSeg :: (midSegs ++ lastSeg)

/-- Total number of data bytes programmed by a segment list. -/
def totalBytes (g : Geometry) (segs : List WriteSegment) : Nat :=
  (segs.map (segmentBytes g)).foldl (· + ·) 0

/-- One `start`/`end` pair of `AT45::MemoryRange` (the C++ field `end` is
called `stop` here; `end` is reserved in Lean). -/
structure SectionRange where
  start : Nat
  stop : Nat
deriving DecidableEq

/-- `AT45::MemoryRange` as used by the erase path.  In the C++ struct the
`start`/`stop` fields have no initializer, so a sub-range that
`getErasableSections` does not assign is uninitialized stack memory;
`none` models "left unassigned" (the claims below are evaluated only on
inputs for which every sub-range read by `eraseRanges` was assigned). -/
structure MemoryRange where
  sector : Option SectionRange
  block : Option SectionRange
  page : Option SectionRange
deriving DecidableEq

/-- `AT45::getErasableSections` (at45db081.cpp lines 604-640): break the
byte range into whole sectors, then whole blocks, then whole pages,
advancing `address`/`len` after the sector and block portions. -/
def getErasableSections (g : Geometry) (address len : Nat) : MemoryRange :=
  let step1 :=
    if g.sectorSize ≤ len then
      let numSectors := len / g.sectorSize
      let start := getSectionFromAddress g .SECTOR address
      (some (SectionRange.mk start (start + numSectors - 1)),
        address + g.sectorSize * numSectors, len - g.sectorSize * numSectors)
    else (none, address, len)
  let step2 :=
    if g.blockSize ≤ step1.2.2 then
      let numBlocks := step1.2.2 / g.blockSize
      let start := getSectionFromAddress g .BLOCK step1.2.1
      (some (SectionRange.mk start (start + numBlocks - 1)),
        step1.2.1 + g.blockSize * numBlocks, step1.2.2 - g.blockSize * numBlocks)
    else (none, step1.2.1, step1.2.2)
  let page :=
    if g.pageSize ≤ step2.2.2 then
      let numPages := step2.2.2 / g.pageSize
      let start := getSectionFromAddress g .PAGE step2.2.1
      some (SectionRange.mk start (start + numPages - 1))
    else none
  ⟨step1.1, step2.1, page⟩

/-- One erase command transmitted to the chip: `sectorErase n` is
`AT45::eraseSector(n)` (opcode 0x7C), `blockErase n` is
`AT45::eraseBlock(n)` (opcode 0x50), `pageErase n` is
`AT45::erasePage(n)` (opcode 0x81). -/
inductive EraseOp where
  | sectorErase (n : Nat)
  | blockErase (n : Nat)
  | pageErase (n : Nat)
deriving DecidableEq

/-- The index sequence of one `for (i = start; i < stop + 1; i++)` loop of
`AT45::eraseRanges`; an unassigned (`none`) range is skipped. -/
def rangeIndices : Option SectionRange → List Nat
  | none => []
  | some r => List.range' r.start (r.stop + 1 - r.start)

/-- The erase commands issued by `AT45::eraseRanges`
(at45db081.cpp lines 662-711) on the path where the device is always
ready and reports no erase/program error.  Note that the source's PAGE
loop calls `eraseBlock(i)`, so the page indices are issued as block-erase
commands. -/
def eraseRanges (r : MemoryRange) : List EraseOp :=
  (rangeIndices r.sector).map EraseOp.sectorErase ++
  (rangeIndices r.block).map EraseOp.blockErase ++
  (rangeIndices r.page).map EraseOp.blockErase

/-- The byte interval a given erase command makes the chip erase:
`true` iff executing `op` erases byte address `b`. -/
def eraseOpCovers (g : Geometry) (op : EraseOp) (b : Nat) : Bool :=
  match op with
  | .sectorErase n => n * g.sectorSize ≤ b ∧ b < (n + 1) * g.sectorSize
  | .blockErase n => n * g.blockSize ≤ b ∧ b < (n + 1) * g.blockSize
  | .pageErase n => n * g.pageSize ≤ b ∧ b < (n + 1) * g.pageSize

/-- The subset of `enum Adesto::Status` (at45db081.hpp) used by the
modelled operations. -/
inductive Status where
  | FLASH_OK
  | ERROR_ADDRESS_NOT_PAGE_ALIGNED
  | ERROR_LENGTH_NOT_PAGE_ALIGNED
  | ERROR_ERASE_LENGTH_INVALID
  | ERROR_WRITE_LENGTH_INVALID
deriving DecidableEq

/-- `AT45::erase` (at45db081.cpp lines 425-437): result status together
with the trace of erase commands transmitted on the SPI bus (the
all-ready, no-error path of `eraseRanges`).  Argument validation happens
before any transport call, so the rejecting branches carry an empty
trace. -/
def erase (g : Geometry) (address len : Nat) : Status × List EraseOp :=
  if len ≠ 0 then
    if address % g.pageSize ≠ 0 then (.ERROR_ADDRESS_NOT_PAGE_ALIGNED, [])
    else if len % g.pageSize ≠ 0 then (.ERROR_LENGTH_NOT_PAGE_ALIGNED, [])
    else (.FLASH_OK, eraseRanges (getErasableSections g address len))
  else (.ERROR_ERASE_LENGTH_INVALID, [])

/-- Opcode of `AT45::erasePage`: `PAGE_ERASE` (at45db081_definitions.hpp). -/
def PAGE_ERASE : Nat := 0x81

/-- Opcode of `AT45::eraseBlock`: `BLOCK_ERASE` (at45db081_definitions.hpp). -/
def BLOCK_ERASE : Nat := 0x50

/-- Opcode of `AT45::eraseSector`: `SECTOR_ERASE` (at45db081_definitions.hpp). -/
def SECTOR_ERASE : Nat := 0x7C

/-- `AT45::buildEraseCommand` (at45db081.cpp lines 768-836): the three
address bytes loaded into `cmdBuffer[1..3]`, paired with whether the
`ADDRESS_OVERRUN` bit of `errorFlags` was set by the bounds check against
`chipSpecs`.  The source records the overrun in the flag only and still
packs the address bytes. -/
def buildEraseCommand (g : Geometry) (s : FlashSection) (sectionNumber : Nat) :
    List Nat × Bool :=
  let config : AddressDescriptions :=
    match s with
    | .PAGE =>
        if g.pageSize = STANDARD_PAGE_SIZE then addressFormat.page.standardSize
        else addressFormat.page.binarySize
    | .BLOCK =>
        if g.pageSize = STANDARD_PAGE_SIZE then addressFormat.block.standardSize
        else addressFormat.block.binarySize
    | .SECTOR =>
        if sectionNumber = 0 then
          if g.pageSize = STANDARD_PAGE_SIZE then addressFormat.sector0ab.standardSize
          else addressFormat.sector0ab.binarySize
        else
          if g.pageSize = STANDARD_PAGE_SIZE then addressFormat.sector.standardSize
          else addressFormat.sector.binarySize
  let overrun : Bool :=
    match s with
    | .PAGE => decide (chipSpecs.numPages ≤ sectionNumber)
    | .BLOCK => decide (chipSpecs.numBlocks ≤ sectionNumber)
    | .SECTOR => decide (chipSpecs.numSectors ≤ sectionNumber)
  let fullAddress : Nat :=
    if s = .SECTOR ∧ sectionNumber = 0 then
      1 <<< config.dummyBitsLSB
    else
      (sectionNumber &&& ((1 <<< config.addressBits) - 1)) <<< config.dummyBitsLSB
  ([(fullAddress &&& 0xFF0000) >>> 16, (fullAddress &&& 0x00FF00) >>> 8,
    fullAddress &&& 0x0000FF], overrun)

/-- One SPI command frame: opcode byte followed by address bytes. -/
structure SpiCommand where
  opcode : Nat
  addr : List Nat
deriving DecidableEq

/-- `AT45::erasePage` (at45db081.cpp lines 729-735): the SPI frames it
transmits.  It transmits unconditionally — there is no rejecting branch. -/
def erasePage (g : Geometry) (pageNumber : Nat) : List SpiCommand :=
  [⟨PAGE_ERASE, (buildEraseCommand g .PAGE pageNumber).1⟩]

/-- `AT45::eraseBlock` (at45db081.cpp lines 721-727). -/
def eraseBlock (g : Geometry) (blockNumber : Nat) : List SpiCommand :=
  [⟨BLOCK_ERASE, (buildEraseCommand g .BLOCK blockNumber).1⟩]

/-- `AT45::eraseSector` (at45db081.cpp lines 713-719). -/
def eraseSector (g : Geometry) (sectorNumber : Nat) : List SpiCommand :=
  [⟨SECTOR_ERASE, (buildEraseCommand g .SECTOR sectorNumber).1⟩]

/-- `Chimera::CommonStatusCodes` values used by the older driver
revision in src/at45db/src/at45db081.cpp. -/
inductive ChimeraStatus where
  | OK
  | NOT_INITIALIZED
  | INVAL_FUNC_PARAM
deriving DecidableEq

namespace V0

/-- `AT45::erasePage` of the older revision
(src/at45db/src/at45db081.cpp lines 528-550): rejects an uninitialized
session and an out-of-range page number before transmitting anything. -/
def erasePage (g : Geometry) (chipInitialized : Bool) (page : Nat) :
    ChimeraStatus × List SpiCommand :=
  if chipInitialized = false then (.NOT_INITIALIZED, [])
  else if chipSpecs.numPages ≤ page then (.INVAL_FUNC_PARAM, [])
  else (.OK, [⟨PAGE_ERASE, (buildEraseCommand g .PAGE page).1⟩])

end V0

/-- `AT45::buildReadWriteCommand` (at45db081.cpp lines 737-766): the
three address bytes loaded into `cmdBuffer[1..3]`, in the exact order the
source assigns them (most significant byte first). -/
def buildReadWriteCommand (g : Geometry) (pageNumber offset : Nat) : List Nat :=
  let config :=
    if g.pageSize = STANDARD_PAGE_SIZE then addressFormat.page.standardSize
    else addressFormat.page.binarySize
  let addressBitMask := (1 <<< config.addressBits) - 1
  let offsetBitMask := (1 <<< config.dummyBitsLSB) - 1
  let fullAddress := ((pageNumber &&& addressBitMask) <<< config.dummyBitsLSB) |||
    (offsetBitMask &&& offset)
  [(fullAddress &&& 0xFF0000) >>> 16, (fullAddress &&& 0x00FF00) >>> 8,
    fullAddress &&& 0x0000FF]

/-- The value a byte list denotes when its bytes are sent most
significant byte first (the flash chip's wire order). -/
def msbBytesVal (bs : List Nat) : Nat := bs.foldl (fun acc b => 256 * acc + b) 0

/-- `READY_BUSY_Pos = (1u << 15)` from `enum StatusRegisterBitPos`
(at45db081.hpp). -/
def READY_BUSY_Pos : Nat := 1 <<< 15

/-- `ERASE_PGM_ERROR_Pos = (1u << 5)` from `enum StatusRegisterBitPos`
(at45db081.hpp). -/
def ERASE_PGM_ERROR_Pos : Nat := 1 <<< 5

/-- `AT45::readStatusRegister` (at45db081.cpp lines 455-480): the two
bytes clocked out after the 0xD7 opcode, combined as
`(uint16_t)((val[0] << 8) | val[1])`. -/
def readStatusRegister (val0 val1 : Nat) : Nat :=
  ((val0 <<< 8) ||| val1) % 65536

/-- `AT45::isDeviceReady` (at45db081.cpp): `val & READY_BUSY_Pos`
converted to bool. -/
def isDeviceReady (sr : Nat) : Bool := decide (sr &&& READY_BUSY_Pos ≠ 0)

/-- `AT45::isErasePgmError` (at45db081.cpp): `val & ERASE_PGM_ERROR_Pos`
converted to bool. -/
def isErasePgmError (sr : Nat) : Bool := decide (sr &&& ERASE_PGM_ERROR_Pos ≠ 0)

/-- The polling loop `while (!isDeviceReady()) { Chimera::delayMilliseconds(...); }`
of `AT45::write` and `AT45::eraseRanges`.  `ready k` is what the k-th
status poll reports; `fuel` bounds how many polls the model observes.
The result is `true` iff the loop has exited within `fuel` polls — the
source loop takes no timeout parameter and exits only on a ready poll. -/
def waitUntilReady (ready : Nat → Bool) : Nat → Nat → Bool
  | _, 0 => false
  | k, fuel + 1 => if ready k then true else waitUntilReady ready (k + 1) fuel

end NORFlash

namespace AT25

/-- `PAGE_SIZE` (at25_constants.hpp): `CHUNK_SIZE_256`. -/
def PAGE_SIZE : Nat := 256

/-- `CHUNK_SIZE_4K` (common.hpp). -/
def CHUNK_SIZE_4K : Nat := 4 * 1024

/-- `CHUNK_SIZE_32K` (common.hpp). -/
def CHUNK_SIZE_32K : Nat := 32 * 1024

/-- `CHUNK_SIZE_64K` (common.hpp). -/
def CHUNK_SIZE_64K : Nat := 64 * 1024

/-- `EraseChunks` (at25_constants.hpp): the supported erase sizes. -/
def EraseChunks : List Nat := [CHUNK_SIZE_4K, CHUNK_SIZE_32K, CHUNK_SIZE_64K]

/-- `Register::SR_RDY_BUSY = SR_RDY_BUSY_MSK << SR_RDY_BUSY_POS`
(at25_register.hpp): `0x01 << 0`. -/
def SR_RDY_BUSY : Nat := 1 <<< 0

namespace Command

/-- `Command::PAGE_PROGRAM` (at25_commands.hpp). -/
def PAGE_PROGRAM : Nat := 0x02

/-- `Command::BLOCK_ERASE_4K` (at25_commands.hpp). -/
def BLOCK_ERASE_4K : Nat := 0x20

/-- `Command::BLOCK_ERASE_32K` (at25_commands.hpp). -/
def BLOCK_ERASE_32K : Nat := 0x52

/-- `Command::BLOCK_ERASE_64K` (at25_commands.hpp). -/
def BLOCK_ERASE_64K : Nat := 0xD8

/-- `Command::CHIP_ERASE` (at25_commands.hpp). -/
def CHIP_ERASE : Nat := 0xC7

/-- `Command::WRITE_ENABLE` (at25_commands.hpp). -/
def WRITE_ENABLE : Nat := 0x06

end Command

/-- `Aurora::Memory::Status` values used by the AT25 driver. -/
inductive MemoryStatus where
  | ERR_OK
  | ERR_BAD_ARG
  | ERR_TIMEOUT
  | ERR_UNSUPPORTED
  | ERR_DRIVER_ERR
deriving DecidableEq

/-- One transport interaction of the AT25 driver: the write-enable
command (`Driver::issueWriteEnable`), a command frame (opcode plus
address bytes) or a data payload of a given byte count. -/
inductive At25Op where
  | writeEnable
  | command (opcode : Nat) (addrBytes : List Nat)
  | dataBytes (len : Nat)
deriving DecidableEq

/-- The address bytes `cmdBuffer[1..3]` as assigned by the AT25 driver:
`(address & ADDRESS_BYTE_3_MSK) >> 16`, `(address & ADDRESS_BYTE_2_MSK) >> 8`,
`(address & ADDRESS_BYTE_1_MSK)` (common.hpp masks). -/
def addressBytes (address : Nat) : List Nat :=
  [(address &&& 0xFF0000) >>> 16, (address &&& 0x00FF00) >>> 8, address &&& 0x0000FF]

/-- `Driver::readStatusRegister` (at25_driver.cpp lines 574-618):
status byte 1 (opcode 0x05) is or-ed into the 16-bit result, then status
byte 2 (opcode 0x35) left-shifted by 8. -/
def readStatusRegister (byte1 byte2 : Nat) : Nat :=
  (byte1 ||| (byte2 <<< 8)) % 65536

/-- The busy test of `Driver::pendEvent`'s loop:
`statusRegister & eventBitMask` with `eventBitMask = Register::SR_RDY_BUSY`. -/
def srBusy (sr : Nat) : Bool := decide (sr &&& SR_RDY_BUSY ≠ 0)

/-- `Chimera::Threading::TIMEOUT_5MS`, the poll delay `pendEvent` uses. -/
def TIMEOUT_5MS : Nat := 5

/-- The polling loop of `Driver::pendEvent` (at25_driver.cpp lines
417-440).  `sr k` is the k-th status register read; the k-th loop entry
happens `pollDelay * k` milliseconds after `startTime` (each iteration
delays `pollDelay` ms, the reads are modelled as instantaneous).
`fuel` is a structural recursion bound; `pendEvent` supplies enough fuel
that the loop's own timeout check always fires first, so the model never
actually returns `none` (theorem `pendEvent_terminates`). -/
def pendEventLoop (sr : Nat → Nat) (timeout pollDelay : Nat) :
    Nat → Nat → Option MemoryStatus
  | _, 0 => none
  | k, fuel + 1 =>
    if srBusy (sr k) then
      if timeout < pollDelay * k then some .ERR_TIMEOUT
      else pendEventLoop sr timeout pollDelay (k + 1) fuel
    else some .ERR_OK

/-- `Driver::pendEvent` (at25_driver.cpp lines 388-443) for the
supported memory events, over a status register trace `sr`. -/
def pendEvent (sr : Nat → Nat) (timeout : Nat) : Option MemoryStatus :=
  pendEventLoop sr timeout TIMEOUT_5MS 0 (timeout / TIMEOUT_5MS + 2)

/-- `Driver::erase(address, length)` (at25_driver.cpp lines 188-298):
result status and the transport trace.  `densityBytes` is
`densityToBytes(mInfo.density)`, consulted by the (unreachable after
validation) whole-chip-erase default branch.  Validation — the length
must be one of `EraseChunks` and the address a multiple of the length —
happens before `issueWriteEnable` and before any SPI traffic. -/
def erase (densityBytes address length : Nat) : MemoryStatus × List At25Op :=
  let validSize := EraseChunks.any (fun c => length = c)
  if validSize = false ∨ length = 0 then (.ERR_BAD_ARG, [])
  else if address % length ≠ 0 then (.ERR_BAD_ARG, [])
  else
    if length = CHUNK_SIZE_4K then
      (.ERR_OK, [.writeEnable, .command Command.BLOCK_ERASE_4K (addressBytes address)])
    else if length = CHUNK_SIZE_32K then
      (.ERR_OK, [.writeEnable, .command Command.BLOCK_ERASE_32K (addressBytes address)])
    else if length = CHUNK_SIZE_64K then
      (.ERR_OK, [.writeEnable, .command Command.BLOCK_ERASE_64K (addressBytes address)])
    else if length = densityBytes then
      (.ERR_OK, [.writeEnable, .command Command.CHIP_ERASE []])
    else (.ERR_UNSUPPORTED, [.writeEnable])

/-- `Driver::write(address, data, length)` (at25_driver.cpp lines
81-135): result status and the transport trace.  `dataNull` models a
null `data` pointer.  The accepted path issues write-enable, one
`PAGE_PROGRAM` command frame, and the `length`-byte payload. -/
def write (address : Nat) (dataNull : Bool) (length : Nat) :
    MemoryStatus × List At25Op :=
  if dataNull = true ∨ length = 0 ∨ PAGE_SIZE < length then (.ERR_BAD_ARG, [])
  else (.ERR_OK, [.writeEnable, .command Command.PAGE_PROGRAM (addressBytes address),
    .dataBytes length])

/-- Whether a transport operation is a `PAGE_PROGRAM` command frame. -/
def isPageProgram : At25Op → Bool
  | .command op _ => op == Command.PAGE_PROGRAM
  | _ => false

end AT25

end Adesto

namespace Adesto

namespace NORFlash

/-- Right shift distributes over bitwise or. -/
theorem shiftRight_lor_distrib (x y n : Nat) :
    (x ||| y) >>> n = (x >>> n) ||| (y >>> n) := by
  apply Nat.eq_of_testBit_eq
  intro i
  simp [Nat.testBit_shiftRight, Nat.testBit_or]

/-- Masking with a left-shifted mask is masking the shifted value. -/
theorem and_shiftLeft_mask (x m k : Nat) :
    x &&& (m <<< k) = ((x >>> k) &&& m) <<< k := by
  apply Nat.eq_of_testBit_eq
  intro i
  simp only [Nat.testBit_and, Nat.testBit_shiftLeft, Nat.testBit_shiftRight]
  by_cases h : k ≤ i
  · simp [ge_iff_le, h, Nat.add_sub_cancel' h]
  · simp [ge_iff_le, h]

/-- A shifted value or-ed with a small value is their sum. -/
theorem lor_shiftLeft_add (a b k : Nat) (hb : b < 2 ^ k) :
    (a <<< k) ||| b = a * 2 ^ k + b := by
  have hx1 : ((a <<< k) ||| b) / 2 ^ k = a := by
    rw [← Nat.shiftRight_eq_div_pow, shiftRight_lor_distrib, Nat.shiftLeft_shiftRight,
      Nat.shiftRight_eq_div_pow, Nat.div_eq_of_lt hb, Nat.or_zero]
  have hx2 : ((a <<< k) ||| b) % 2 ^ k = b := by
    rw [← Nat.and_pow_two_sub_one_eq_mod, Nat.and_distrib_right,
      Nat.and_pow_two_sub_one_eq_mod, Nat.and_pow_two_sub_one_eq_mod,
      Nat.shiftLeft_eq, Nat.mul_mod_left, Nat.mod_eq_of_lt hb, Nat.zero_or]
  have h3 := Nat.div_add_mod ((a <<< k) ||| b) (2 ^ k)
  rw [hx1, hx2] at h3
  rw [← h3]; ring

/-- The high byte the driver emits is bits 23..16. -/
theorem byte_hi (x : Nat) : (x &&& 0xFF0000) >>> 16 = x / 65536 % 256 := by
  have h1 : (0xFF0000 : Nat) = (0xFF : Nat) <<< 16 := by norm_num [Nat.shiftLeft_eq]
  have h2 : (0xFF : Nat) = 2 ^ 8 - 1 := by norm_num
  rw [h1, and_shiftLeft_mask, Nat.shiftLeft_shiftRight, h2,
    Nat.and_pow_two_sub_one_eq_mod, Nat.shiftRight_eq_div_pow]

/-- The middle byte the driver emits is bits 15..8. -/
theorem byte_mid (x : Nat) : (x &&& 0x00FF00) >>> 8 = x / 256 % 256 := by
  have h1 : (0x00FF00 : Nat) = (0xFF : Nat) <<< 8 := by norm_num [Nat.shiftLeft_eq]
  have h2 : (0xFF : Nat) = 2 ^ 8 - 1 := by norm_num
  rw [h1, and_shiftLeft_mask, Nat.shiftLeft_shiftRight, h2,
    Nat.and_pow_two_sub_one_eq_mod, Nat.shiftRight_eq_div_pow]

/-- The low byte the driver emits is bits 7..0. -/
theorem byte_lo (x : Nat) : x &&& 0x0000FF = x % 256 := by
  rw [show (0x0000FF : Nat) = 2 ^ 8 - 1 by norm_num, Nat.and_pow_two_sub_one_eq_mod]

/-- Reassembling the three emitted bytes most significant byte first
recovers any 24-bit value. -/
theorem msb3_reassemble (x : Nat) (hx : x < 16777216) :
    msbBytesVal [(x &&& 0xFF0000) >>> 16, (x &&& 0x00FF00) >>> 8, x &&& 0x0000FF] = x := by
  simp only [msbBytesVal, List.foldl, byte_hi, byte_mid, byte_lo]
  omega

/-- C1: the claim that `AT45::write`'s segment list exactly tiles
`[address, address + length)` with the byte counts summing to `length`
fails on the code.  In binary page mode (pageSize = 256), `write(0, 257)`
issues a single read-modify-write of 256 bytes and nothing else (the
remaining tail is dropped because `endPageOffset` is the offset of the
last byte within the last page, not a byte count, and the last-page
branch is skipped entirely when that offset is 0), so only 256 of the
257 bytes are programmed; `write(0, 512)` issues a 256-byte and a
255-byte operation, programming 511 of the 512 bytes. -/
theorem write_segments_drop_final_byte :
    writeSegments binaryGeometry 0 257 = [WriteSegment.rmw 0 0 256] ∧
    totalBytes binaryGeometry (writeSegments binaryGeometry 0 257) = 256 ∧
    (256 : Nat) ≠ 257 ∧
    writeSegments binaryGeometry 0 512 =
      [WriteSegment.rmw 0 0 256, WriteSegment.rmw 1 0 255] ∧
    totalBytes binaryGeometry (writeSegments binaryGeometry 0 512) = 511 ∧
    (511 : Nat) ≠ 512 := by
  refine ⟨by decide, by decide, by decide, by decide, by decide, by decide⟩

/-- C2: a write whose first and last page coincide (that is,
`address % pageSize + len <= pageSize` with `len > 0`) makes `AT45::write`
issue exactly one read-modify-write operation, covering the whole length
at the correct page and offset — never a first-part plus last-part pair
against the same page. -/
theorem write_single_page (g : Geometry) (address len : Nat)
    (hp : 0 < g.pageSize) (hlen : 0 < len)
    (hfit : address % g.pageSize + len ≤ g.pageSize) :
    writeSegments g address len =
      [WriteSegment.rmw (address / g.pageSize) (address % g.pageSize) len] := by
  obtain ⟨q, r, hr, rfl⟩ : ∃ q r, r < g.pageSize ∧ address = g.pageSize * q + r :=
    ⟨address / g.pageSize, address % g.pageSize, Nat.mod_lt _ hp,
      (Nat.div_add_mod address g.pageSize).symm⟩
  have hmod : (g.pageSize * q + r) % g.pageSize = r := by
    rw [Nat.mul_add_mod, Nat.mod_eq_of_lt hr]
  have hdiv : (g.pageSize * q + r) / g.pageSize = q := by
    rw [Nat.mul_add_div hp, Nat.div_eq_of_lt hr, Nat.add_zero]
  rw [hmod] at hfit
  have hshift : ∀ t : Nat, t + r + len - 1 = t + (r + len - 1) := fun t => by omega
  have htail : r + len - 1 < g.pageSize := by omega
  have hstop : (g.pageSize * q + r + len - 1) / g.pageSize = q := by
    rw [hshift, Nat.mul_add_div hp, Nat.div_eq_of_lt htail, Nat.add_zero]
  have hsub : ∀ t s : Nat, t + s - t = s := fun t s => by omega
  simp only [writeSegments, getWriteReadPages, getSectionFromAddress,
    getSectionStartAddress, hdiv, hmod, hstop]
  rw [if_neg (by omega)]
  rw [Nat.mul_comm q g.pageSize, hsub]
  have hwl : (if len < g.pageSize - r then len else g.pageSize - r) = len := by
    by_cases h : len < g.pageSize - r
    · rw [if_pos h]
    · rw [if_neg h]; omega
  rw [hwl]
  have hrange : q - (q + 1) = 0 := by omega
  rw [hrange, List.range'_zero]
  simp only [List.map_nil, List.nil_append]
  rw [if_neg (by simp)]

/-- C3: the claim that executing the emitted erase units in order erases
exactly `[address, address + length)`, each unit issued with the erase
command of its own granularity, fails on the code.  In binary page mode,
`erase(0, 67840)` (one sector + one block + one page, all aligned) plans
`Sector(0), Block(32), Page(264)`, but `AT45::eraseRanges`' PAGE loop
calls `eraseBlock(i)`, so the third unit goes out as a block-erase of
block 264 — which erases byte 540672 (and the rest of
`[540672, 542720)`), far outside the requested range `[0, 67840)`,
while page 264's bytes `[67584, 67840)` are not erased by it. -/
theorem erase_page_loop_issues_block_erase :
    eraseRanges (getErasableSections binaryGeometry 0 67840) =
      [EraseOp.sectorErase 0, EraseOp.blockErase 32, EraseOp.blockErase 264] ∧
    eraseOpCovers binaryGeometry (EraseOp.blockErase 264) 540672 = true ∧
    ¬ (540672 < 67840) ∧
    eraseOpCovers binaryGeometry (EraseOp.blockErase 264) 67584 = false ∧
    eraseOpCovers binaryGeometry (EraseOp.pageErase 264) 67584 = true := by
  refine ⟨by decide, by decide, by decide, by decide, by decide⟩

/-- C5: a positive-length erase whose address or length is not
page-aligned is rejected by `AT45::erase` with the corresponding
misalignment error, and no erase command is transmitted (the argument
checks run before any transport call). -/
theorem erase_misaligned_rejected (g : Geometry) (address len : Nat)
    (hlen : 0 < len)
    (hmis : address % g.pageSize ≠ 0 ∨ len % g.pageSize ≠ 0) :
    (erase g address len).2 = [] ∧
    ((erase g address len).1 = Status.ERROR_ADDRESS_NOT_PAGE_ALIGNED ∨
      (erase g address len).1 = Status.ERROR_LENGTH_NOT_PAGE_ALIGNED) := by
  unfold erase
  rw [if_pos (by omega)]
  by_cases ha : address % g.pageSize ≠ 0
  · rw [if_pos ha]
    exact ⟨rfl, Or.inl rfl⟩
  · rw [if_neg ha]
    have hl : len % g.pageSize ≠ 0 := by tauto
    rw [if_pos hl]
    exact ⟨rfl, Or.inr rfl⟩

/-- C5 witness: in binary page mode, `erase(1, 256)` (misaligned address)
is rejected with no transport traffic. -/
theorem erase_misaligned_rejected_witness :
    0 < 256 ∧ (1 % binaryGeometry.pageSize ≠ 0 ∨ 256 % binaryGeometry.pageSize ≠ 0) ∧
    ((erase binaryGeometry 1 256).2 = [] ∧
      ((erase binaryGeometry 1 256).1 = Status.ERROR_ADDRESS_NOT_PAGE_ALIGNED ∨
        (erase binaryGeometry 1 256).1 = Status.ERROR_LENGTH_NOT_PAGE_ALIGNED)) :=
  ⟨by decide, by decide,
    erase_misaligned_rejected binaryGeometry 1 256 (by decide) (by decide)⟩

/-- C6 counterexample: the claim that an out-of-range unit index is never
packed and transmitted fails on the current driver revision.  Page index
4096 is out of range (`chipSpecs.numPages = 4096`), `buildEraseCommand`
sets the `ADDRESS_OVERRUN` flag — and `AT45::erasePage` nonetheless packs
the index (masked to 12 bits it wraps to page 0's address bytes
`[0, 0, 0]`) and transmits the erase frame. -/
theorem erase_out_of_range_transmitted :
    chipSpecs.numPages ≤ 4096 ∧
    (buildEraseCommand binaryGeometry .PAGE 4096).2 = true ∧
    erasePage binaryGeometry 4096 = [⟨PAGE_ERASE, [0, 0, 0]⟩] ∧
    erasePage binaryGeometry 4096 ≠ [] := by
  refine ⟨by decide, by decide, by decide, by decide⟩

/-- C6 amended: every erase unit index is bounds-checked against
`chipSpecs.numPages/numBlocks/numSectors`, but the check only sets the
internal `ADDRESS_OVERRUN` error flag — the current revision's
`erasePage`/`eraseBlock`/`eraseSector` still pack and transmit exactly
one erase frame for any index.  Only the older revision's `erasePage`
rejects an out-of-range index before transmitting. -/
theorem erase_bounds_check_flags_only (n : Nat) :
    (buildEraseCommand binaryGeometry .PAGE n).2 = decide (chipSpecs.numPages ≤ n) ∧
    (buildEraseCommand binaryGeometry .BLOCK n).2 = decide (chipSpecs.numBlocks ≤ n) ∧
    (buildEraseCommand binaryGeometry .SECTOR n).2 = decide (chipSpecs.numSectors ≤ n) ∧
    (erasePage binaryGeometry n).length = 1 ∧
    (eraseBlock binaryGeometry n).length = 1 ∧
    (eraseSector binaryGeometry n).length = 1 ∧
    (chipSpecs.numPages ≤ n →
      V0.erasePage binaryGeometry true n = (ChimeraStatus.INVAL_FUNC_PARAM, [])) := by
  refine ⟨rfl, rfl, rfl, rfl, rfl, rfl, fun h => ?_⟩
  simp [V0.erasePage, h]

/-- C6 amended witness: at page index 4096 the flag is set, the frame is
still transmitted by the current revision, and the older revision
rejects. -/
theorem erase_bounds_check_flags_only_witness :
    chipSpecs.numPages ≤ 4096 ∧
    V0.erasePage binaryGeometry true 4096 = (ChimeraStatus.INVAL_FUNC_PARAM, []) :=
  ⟨by decide, (erase_bounds_check_flags_only 4096).2.2.2.2.2.2 (by decide)⟩

/-- C8: for every page number and offset, in both page-size modes,
`AT45::buildReadWriteCommand` emits exactly
`addressFormat.numAddressBytes` (three) address bytes whose most
significant byte first reading equals the page number masked to the
mode's 12 address bits, left-shifted by the mode's offset bit width
(8 in binary mode, 9 in standard mode), plus (bitwise or of disjoint
fields) the offset masked to that offset bit width. -/
theorem build_rw_command_packs_msb_first (pageNumber offset : Nat) :
    (buildReadWriteCommand binaryGeometry pageNumber offset).length =
      addressFormat.numAddressBytes ∧
    msbBytesVal (buildReadWriteCommand binaryGeometry pageNumber offset) =
      (pageNumber % 2 ^ 12) * 2 ^ 8 + offset % 2 ^ 8 ∧
    (buildReadWriteCommand dataFlashGeometry pageNumber offset).length =
      addressFormat.numAddressBytes ∧
    msbBytesVal (buildReadWriteCommand dataFlashGeometry pageNumber offset) =
      (pageNumber % 2 ^ 12) * 2 ^ 9 + offset % 2 ^ 9 := by
  refine ⟨rfl, ?_, rfl, ?_⟩
  · show msbBytesVal
      (let f := ((pageNumber &&& 4095) <<< 8) ||| (255 &&& offset)
       [(f &&& 0xFF0000) >>> 16, (f &&& 0x00FF00) >>> 8, f &&& 0x0000FF]) = _
    have hmask : pageNumber &&& 4095 = pageNumber % 2 ^ 12 := by
      rw [show (4095 : Nat) = 2 ^ 12 - 1 by norm_num, Nat.and_pow_two_sub_one_eq_mod]
    have homask : 255 &&& offset = offset % 2 ^ 8 := by
      rw [Nat.and_comm, show (255 : Nat) = 2 ^ 8 - 1 by norm_num,
        Nat.and_pow_two_sub_one_eq_mod]
    have hadd : ((pageNumber % 2 ^ 12) <<< 8) ||| (offset % 2 ^ 8) =
        (pageNumber % 2 ^ 12) * 2 ^ 8 + offset % 2 ^ 8 :=
      lor_shiftLeft_add _ _ _ (Nat.mod_lt _ (by norm_num))
    simp only [hmask, homask, hadd]
    apply msb3_reassemble
    have h1 : pageNumber % 2 ^ 12 < 2 ^ 12 := Nat.mod_lt _ (by norm_num)
    have h2 : offset % 2 ^ 8 < 2 ^ 8 := Nat.mod_lt _ (by norm_num)
    omega
  · show msbBytesVal
      (let f := ((pageNumber &&& 4095) <<< 9) ||| (511 &&& offset)
       [(f &&& 0xFF0000) >>> 16, (f &&& 0x00FF00) >>> 8, f &&& 0x0000FF]) = _
    have hmask : pageNumber &&& 4095 = pageNumber % 2 ^ 12 := by
      rw [show (4095 : Nat) = 2 ^ 12 - 1 by norm_num, Nat.and_pow_two_sub_one_eq_mod]
    have homask : 511 &&& offset = offset % 2 ^ 9 := by
      rw [Nat.and_comm, show (511 : Nat) = 2 ^ 9 - 1 by norm_num,
        Nat.and_pow_two_sub_one_eq_mod]
    have hadd : ((pageNumber % 2 ^ 12) <<< 9) ||| (offset % 2 ^ 9) =
        (pageNumber % 2 ^ 12) * 2 ^ 9 + offset % 2 ^ 9 :=
      lor_shiftLeft_add _ _ _ (Nat.mod_lt _ (by norm_num))
    simp only [hmask, homask, hadd]
    apply msb3_reassemble
    have h1 : pageNumber % 2 ^ 12 < 2 ^ 12 := Nat.mod_lt _ (by norm_num)
    have h2 : offset % 2 ^ 9 < 2 ^ 9 := Nat.mod_lt _ (by norm_num)
    omega

/-- C2 witness: the spec's own scenario — in binary page mode a 10-byte
write at offset 84 of page 35 (linear address 9044) is a single
read-modify-write segment of length 10. -/
theorem write_single_page_witness :
    0 < binaryGeometry.pageSize ∧ 0 < 10 ∧
    9044 % binaryGeometry.pageSize + 10 ≤ binaryGeometry.pageSize ∧
    writeSegments binaryGeometry 9044 10 =
      [WriteSegment.rmw (9044 / binaryGeometry.pageSize)
        (9044 % binaryGeometry.pageSize) 10] :=
  ⟨by decide, by decide, by decide,
    write_single_page binaryGeometry 9044 10 (by decide) (by decide) (by decide)⟩

end NORFlash

/-- The AT45 polling loop over a never-ready status trace stays inside
the loop no matter how many polls it is allowed. -/
theorem waitUntilReady_never_exits (k fuel : Nat) :
    NORFlash.waitUntilReady (fun _ => false) k fuel = false := by
  induction fuel generalizing k with
  | zero => rfl
  | succ n ih => simp [NORFlash.waitUntilReady, ih]

/-- The AT25 `pendEvent` loop returns once the elapsed time at the next
check exceeds the timeout, so enough fuel guarantees a result. -/
theorem pendEventLoop_exits (sr : Nat → Nat) (timeout : Nat) :
    ∀ fuel k, timeout < 5 * (k + fuel) →
      (AT25.pendEventLoop sr timeout 5 k (fuel + 1)).isSome = true := by
  intro fuel
  induction fuel with
  | zero =>
    intro k hk
    unfold AT25.pendEventLoop
    by_cases hb : AT25.srBusy (sr k)
    · rw [if_pos hb, if_pos (by omega)]; rfl
    · rw [if_neg hb]; rfl
  | succ n ih =>
    intro k hk
    unfold AT25.pendEventLoop
    by_cases hb : AT25.srBusy (sr k)
    · rw [if_pos hb]
      by_cases ht : timeout < 5 * k
      · rw [if_pos ht]; rfl
      · rw [if_neg ht]
        exact ih (k + 1) (by omega)
    · rw [if_neg hb]; rfl

/-- `Driver::pendEvent` always reaches a result for every status trace
and every timeout: its polling is bounded by the timeout argument. -/
theorem pendEvent_terminates (sr : Nat → Nat) (timeout : Nat) :
    (AT25.pendEvent sr timeout).isSome = true := by
  have h := Nat.div_add_mod timeout 5
  have hm : timeout % 5 < 5 := Nat.mod_lt _ (by omega)
  exact pendEventLoop_exits sr timeout (timeout / 5 + 1) 0 (by omega)

/-- C4: not every busy/ready polling wait is bounded by a caller-supplied
timeout.  The AT45 loops (`AT45::write`, `AT45::eraseRanges`) take no
timeout and never exit while the device never reports ready — for the
never-ready trace the loop is still running after any number of polls.
The AT25 `Driver::pendEvent` does implement the bounded contract: on an
always-busy trace with a 100 ms timeout it returns `ERR_TIMEOUT`, and it
produces a result for every trace and timeout. -/
theorem polling_bound_contrast :
    (∀ fuel, NORFlash.waitUntilReady (fun _ => false) 0 fuel = false) ∧
    AT25.pendEvent (fun _ => 1) 100 = some AT25.MemoryStatus.ERR_TIMEOUT ∧
    (∀ sr timeout, (AT25.pendEvent sr timeout).isSome = true) :=
  ⟨fun fuel => waitUntilReady_never_exits 0 fuel, by decide,
    fun sr timeout => pendEvent_terminates sr timeout⟩

/-- Testing a one-bit mask `1 <<< i` against zero is testing bit `i`. -/
theorem and_one_shl_ne_zero (sr i : Nat) :
    decide (sr &&& (1 <<< i) ≠ 0) = sr.testBit i := by
  have h : (1 : Nat) <<< i = 2 ^ i := by rw [Nat.shiftLeft_eq, Nat.one_mul]
  rw [h, Nat.and_two_pow]
  cases hb : sr.testBit i <;> simp [hb]

/-- C7 counterexample: the claim that `readStatusRegister` concatenates
the two status bytes MSB-first with bit 15 the ready flag fails on the
AT25 driver.  For status bytes `{0x80, 0x00}` the AT25
`Driver::readStatusRegister` returns `0x0080` — the first byte lands in
the LOW byte — not the MSB-first value `0x8000` (which the AT45 returns
for the same bytes); bit 15 of the AT25 result is clear, and the AT25's
own ready/busy flag is bit 0 (the device here reads as not busy). -/
theorem status_bytes_lsb_first_in_at25 :
    AT25.readStatusRegister 0x80 0x00 = 0x0080 ∧
    NORFlash.readStatusRegister 0x80 0x00 = 0x8000 ∧
    (0x0080 : Nat) ≠ 0x8000 ∧
    Nat.testBit (AT25.readStatusRegister 0x80 0x00) 15 = false ∧
    AT25.srBusy (AT25.readStatusRegister 0x80 0x00) = false :=
  ⟨by decide, by decide, by decide, by decide, by decide⟩

/-- C7 amended: the AT45 `readStatusRegister` concatenates the two bytes
MSB-first (`256 * first + second`), its ready flag is bit 15 and its
erase/program error flag bit 5, and `{0x80, 0x00}` decodes to ready with
no error; the AT25 `readStatusRegister` instead places the first status
byte in the low byte (`first + 256 * second`) and its busy flag is
bit 0. -/
theorem status_register_decode (b0 b1 sr : Nat) (h0 : b0 < 256) (h1 : b1 < 256) :
    NORFlash.readStatusRegister b0 b1 = 256 * b0 + b1 ∧
    NORFlash.isDeviceReady sr = sr.testBit 15 ∧
    NORFlash.isErasePgmError sr = sr.testBit 5 ∧
    NORFlash.isDeviceReady (NORFlash.readStatusRegister 0x80 0x00) = true ∧
    NORFlash.isErasePgmError (NORFlash.readStatusRegister 0x80 0x00) = false ∧
    AT25.readStatusRegister b0 b1 = b0 + 256 * b1 ∧
    AT25.srBusy sr = sr.testBit 0 := by
  have hshl : ∀ a b : Nat, b < 256 → (a <<< 8) ||| b = a * 256 + b := fun a b hb =>
    NORFlash.lor_shiftLeft_add a b 8 hb
  refine ⟨?_, ?_, ?_, by decide, by decide, ?_, ?_⟩
  · unfold NORFlash.readStatusRegister
    rw [hshl b0 b1 h1, Nat.mod_eq_of_lt (by omega)]
    omega
  · exact and_one_shl_ne_zero sr 15
  · exact and_one_shl_ne_zero sr 5
  · unfold AT25.readStatusRegister
    rw [Nat.lor_comm, hshl b1 b0 h0, Nat.mod_eq_of_lt (by omega)]
    omega
  · exact and_one_shl_ne_zero sr 0

/-- C7 amended witness: the decode at the spec's scenario bytes
`{0x80, 0x00}` and at the register value `0x8000`. -/
theorem status_register_decode_witness :
    NORFlash.readStatusRegister 0x80 0x00 = 256 * 0x80 + 0x00 ∧
    NORFlash.isDeviceReady 0x8000 = Nat.testBit 0x8000 15 ∧
    NORFlash.isErasePgmError 0x8000 = Nat.testBit 0x8000 5 ∧
    NORFlash.isDeviceReady (NORFlash.readStatusRegister 0x80 0x00) = true ∧
    NORFlash.isErasePgmError (NORFlash.readStatusRegister 0x80 0x00) = false ∧
    AT25.readStatusRegister 0x80 0x00 = 0x80 + 256 * 0x00 ∧
    AT25.srBusy 0x8000 = Nat.testBit 0x8000 0 :=
  status_register_decode 0x80 0x00 0x8000 (by decide) (by decide)

/-- C9: `Driver::erase` rejects, with `ERR_BAD_ARG` and zero transport
traffic, every request whose length is not one of the supported erase
chunk sizes (4 KiB, 32 KiB, 64 KiB) or whose address is not a multiple
of the length; otherwise validation passes and exactly the write-enable
plus the erase command of that chunk size (with the packed address) is
issued. -/
theorem at25_erase_validation (d a l : Nat) :
    (¬ (l = 4096 ∨ l = 32768 ∨ l = 65536) → AT25.erase d a l = (.ERR_BAD_ARG, [])) ∧
    (a % l ≠ 0 → AT25.erase d a l = (.ERR_BAD_ARG, [])) ∧
    ((l = 4096 ∨ l = 32768 ∨ l = 65536) → a % l = 0 →
      AT25.erase d a l = (.ERR_OK, [.writeEnable,
        .command (if l = 4096 then AT25.Command.BLOCK_ERASE_4K
                  else if l = 32768 then AT25.Command.BLOCK_ERASE_32K
                  else AT25.Command.BLOCK_ERASE_64K) (AT25.addressBytes a)])) := by
  refine ⟨fun hbad => ?_, fun hmis => ?_, fun hgood hal => ?_⟩
  · have hv : AT25.EraseChunks.any (fun c => l = c) = false := by
      simp [AT25.EraseChunks, AT25.CHUNK_SIZE_4K, AT25.CHUNK_SIZE_32K,
        AT25.CHUNK_SIZE_64K]
      push_neg at hbad
      exact ⟨hbad.1, hbad.2.1, hbad.2.2⟩
    simp [AT25.erase, hv]
  · by_cases hv : AT25.EraseChunks.any (fun c => l = c) = false
    · simp [AT25.erase, hv]
    · have hv' : AT25.EraseChunks.any (fun c => l = c) = true := by
        revert hv; cases AT25.EraseChunks.any (fun c => l = c) <;> simp
      have hmem : l = 4096 ∨ l = 32768 ∨ l = 65536 := by
        simpa [AT25.EraseChunks, AT25.CHUNK_SIZE_4K, AT25.CHUNK_SIZE_32K,
          AT25.CHUNK_SIZE_64K] using hv'
      have hl0 : l ≠ 0 := by omega
      simp [AT25.erase, hv', hl0, hmis]
  · have hv' : AT25.EraseChunks.any (fun c => l = c) = true := by
      simp [AT25.EraseChunks, AT25.CHUNK_SIZE_4K, AT25.CHUNK_SIZE_32K,
        AT25.CHUNK_SIZE_64K]
      exact hgood
    rcases hgood with h | h | h <;> subst h <;>
      simp [AT25.erase, hv', hal, AT25.CHUNK_SIZE_4K, AT25.CHUNK_SIZE_32K,
        AT25.CHUNK_SIZE_64K]

/-- C9 witness: length 100 is rejected; 32 KiB at a misaligned address
(4096) is rejected; 32 KiB at address 32768 passes and issues
write-enable plus the 32 KiB erase opcode. -/
theorem at25_erase_validation_witness :
    (¬ ((100 : Nat) = 4096 ∨ (100 : Nat) = 32768 ∨ (100 : Nat) = 65536)) ∧
    AT25.erase 1048576 0 100 = (.ERR_BAD_ARG, []) ∧
    (4096 : Nat) % 32768 ≠ 0 ∧
    AT25.erase 1048576 4096 32768 = (.ERR_BAD_ARG, []) ∧
    ((32768 : Nat) = 4096 ∨ (32768 : Nat) = 32768 ∨ (32768 : Nat) = 65536) ∧
    (32768 : Nat) % 32768 = 0 ∧
    AT25.erase 1048576 32768 32768 = (.ERR_OK, [.writeEnable,
      .command (if (32768 : Nat) = 4096 then AT25.Command.BLOCK_ERASE_4K
                else if (32768 : Nat) = 32768 then AT25.Command.BLOCK_ERASE_32K
                else AT25.Command.BLOCK_ERASE_64K) (AT25.addressBytes 32768)]) :=
  ⟨by decide, (at25_erase_validation 1048576 0 100).1 (by decide),
    by decide, (at25_erase_validation 1048576 4096 32768).2.1 (by decide),
    by decide, by decide,
    (at25_erase_validation 1048576 32768 32768).2.2 (by decide) (by decide)⟩

/-- C10: `Driver::write` rejects, with `ERR_BAD_ARG` and zero transport
traffic, every call with a null data pointer, a zero length, or a length
above one page (256 bytes); an accepted call issues exactly one
`PAGE_PROGRAM` command frame followed by the at-most-one-page payload,
so a single call never splits into multiple page programs. -/
theorem at25_write_validation (a : Nat) (dataNull : Bool) (l : Nat) :
    (dataNull = true ∨ l = 0 ∨ 256 < l →
      AT25.write a dataNull l = (.ERR_BAD_ARG, [])) ∧
    (dataNull = false → 0 < l → l ≤ 256 →
      AT25.write a dataNull l = (.ERR_OK, [.writeEnable,
        .command AT25.Command.PAGE_PROGRAM (AT25.addressBytes a), .dataBytes l]) ∧
      ((AT25.write a dataNull l).2.countP AT25.isPageProgram = 1)) := by
  constructor
  · intro hbad
    have : dataNull = true ∨ l = 0 ∨ AT25.PAGE_SIZE < l := by
      simpa [AT25.PAGE_SIZE] using hbad
    simp [AT25.write, this]
  · intro hn hl0 hl
    have hcond : ¬ (dataNull = true ∨ l = 0 ∨ AT25.PAGE_SIZE < l) := by
      simp [AT25.PAGE_SIZE, hn]
      omega
    constructor
    · simp [AT25.write, hcond]
    · simp [AT25.write, hcond, AT25.isPageProgram, List.countP_cons]

/-- C10 witness: a null pointer and an over-long write are rejected with
no traffic; a 10-byte write is a single page-program transaction. -/
theorem at25_write_validation_witness :
    AT25.write 5 true 10 = (.ERR_BAD_ARG, []) ∧
    AT25.write 5 false 300 = (.ERR_BAD_ARG, []) ∧
    (AT25.write 5 false 10 = (.ERR_OK, [.writeEnable,
      .command AT25.Command.PAGE_PROGRAM (AT25.addressBytes 5), .dataBytes 10]) ∧
      ((AT25.write 5 false 10).2.countP AT25.isPageProgram = 1)) :=
  ⟨(at25_write_validation 5 true 10).1 (by decide),
    (at25_write_validation 5 false 300).1 (by decide),
    (at25_write_validation 5 false 10).2 (by decide) (by decide) (by decide)⟩

end Adesto
